import Mathlib

/-!
Verification of the natural-language specification of the `alert-center`
integration smoke-test harness (`scripts/integration_smoke_slow.py`,
`scripts/integration_smoke_fast.py`, `scripts/integration_smoke.py`)
against a shallow embedding of that code.

Modelling conventions:
* Python dict/JSON values are embedded only at the granularity the harness
  itself inspects (`resp["data"]["id"]`, `resp["data"]["token"]`,
  `resp["data"]["data"]`, row fields `id`, `rule_id`, `fingerprint`,
  `status`).
* The platform under test is an oracle: a list of responses, one consumed
  per HTTP request, each either a JSON value or an error (the `RuntimeError`
  that `http` raises on a non-2xx response, or a transport error).
* Python exceptions are `Except String`; statements such as
  `created["rule_id"] = ...` are explicit state passing.
* Wall-clock time is an integer number of seconds; predicate evaluation and
  HTTP calls are taken as instantaneous, `time.sleep(s)` advances the clock
  by `s` (the reading the spec itself fixes for the poller bound).
-/

namespace AlertSmoke

/-- Status of one recorded outcome: the `"ok"` / `"fail"` strings of
`results.append((name, "ok", None))` and `results.append((name, "fail", str(e)))`. -/
inductive CStatus
  | ok
  | fail
  deriving DecidableEq, Repr

/-- One entry of the `results` list: `(name, status, err)`. -/
structure Outcome where
  name : String
  status : CStatus
  detail : Option String
  deriving DecidableEq, Repr

/-- The `created` dict of `integration_smoke_slow.py` line 139:
`{"rule_id": None, "channel_id": None, "template_id": None,
"sla_config_id": None, "user_id": None, "escalation_id": None}`.
`none` is Python `None`. -/
structure Created where
  rule_id : Option Nat := none
  channel_id : Option Nat := none
  template_id : Option Nat := none
  sla_config_id : Option Nat := none
  user_id : Option Nat := none
  escalation_id : Option Nat := none
  deriving DecidableEq, Repr

/-- One alert-history row, at the granularity the harness reads:
`row["id"]`, `row.get("rule_id")`, `row.get("fingerprint")`, `row.get("status")`. -/
structure Row where
  id : Nat
  rule_id : Nat
  fingerprint : Option String
  status : String
  deriving DecidableEq, Repr

/-- A platform JSON response, at the granularity the harness extracts:
`.id n` for responses read as `resp["data"]["id"]`;
`.tok t uid` for the login response (`["data"]["token"]`, `["data"]["user"]["id"]`);
`.rows rs` for list responses read as `resp["data"]["data"]`;
`.unit` for responses the harness never inspects. -/
inductive JVal
  | id (n : Nat)
  | tok (t : String) (uid : Nat)
  | rows (rs : List Row)
  | unit
  deriving DecidableEq, Repr

/-- The request paths the slow harness issues, one constructor per format
string in the source; `Path.render` below gives the exact URL text. -/
inductive Path
  | authLogin
  | businessGroups
  | users
  | userId (i : Nat)
  | slaConfigs
  | slaConfigId (i : Nat)
  | templates
  | templateId (i : Nat)
  | channels
  | channelId (i : Nat)
  | alertRules
  | alertRuleId (i : Nat)
  | ruleBindings (rule : Nat)
  | alertHistory
  | slaBreachesCheck
  | slaBreaches
  | slaAlerts (i : Nat)
  | slaReport
  | tickets
  | oncallSchedules
  | oncallScheduleId (i : Nat)
  | oncallMembers (i : Nat)
  | oncallGenerateRotations (i : Nat)
  | oncallAssignments (i : Nat)
  | oncallCurrent
  | oncallWho
  | oncallReport
  | oncallGenerate (i : Nat)
  | oncallCoverage (i : Nat)
  | oncallSuggest (i : Nat)
  | oncallValidate (i : Nat)
  | correlationAnalyze (alertId : Option Nat)
  | correlationPatterns
  | correlationGroups
  | correlationTimeline (fp : String)
  | correlationFlapping (ruleId : Option Nat)
  | correlationPredict (ruleId : Option Nat)
  | escalations
  | escalationsPending
  | escalationAccept (i : Nat)
  | escalationResolve (i : Nat)
  | escalationReject (i : Nat)
  | escalationsAlert (alertId : Option Nat)
  | escalationsStats
  deriving DecidableEq, Repr

/-- Python `str(x)` for an optional id interpolated into an f-string:
`None` renders as the text `None`. -/
def pyStr : Option Nat → String
  | none => "None"
  | some n => toString n

/-- The exact URL text of each `Path`, as the f-strings of the source build it
(query strings included; `parse.quote` on a fingerprint is kept abstract as
the identity on the already-captured fingerprint text). -/
def Path.render : Path → String
  | .authLogin => "/auth/login"
  | .businessGroups => "/business-groups"
  | .users => "/users"
  | .userId i => "/users/" ++ toString i
  | .slaConfigs => "/sla/configs"
  | .slaConfigId i => "/sla/configs/" ++ toString i
  | .templates => "/templates"
  | .templateId i => "/templates/" ++ toString i
  | .channels => "/channels"
  | .channelId i => "/channels/" ++ toString i
  | .alertRules => "/alert-rules"
  | .alertRuleId i => "/alert-rules/" ++ toString i
  | .ruleBindings r => "/alert-rules/" ++ toString r ++ "/bindings"
  | .alertHistory => "/alert-history"
  | .slaBreachesCheck => "/sla/breaches/check"
  | .slaBreaches => "/sla/breaches"
  | .slaAlerts i => "/sla/alerts/" ++ toString i
  | .slaReport => "/sla/report"
  | .tickets => "/tickets"
  | .oncallSchedules => "/oncall/schedules"
  | .oncallScheduleId i => "/oncall/schedules/" ++ toString i
  | .oncallMembers i => "/oncall/schedules/" ++ toString i ++ "/members"
  | .oncallGenerateRotations i => "/oncall/schedules/" ++ toString i ++ "/generate-rotations"
  | .oncallAssignments i => "/oncall/schedules/" ++ toString i ++ "/assignments"
  | .oncallCurrent => "/oncall/current"
  | .oncallWho => "/oncall/who"
  | .oncallReport => "/oncall/report"
  | .oncallGenerate i => "/oncall/schedules/" ++ toString i ++ "/generate"
  | .oncallCoverage i => "/oncall/schedules/" ++ toString i ++ "/coverage"
  | .oncallSuggest i => "/oncall/schedules/" ++ toString i ++ "/suggest"
  | .oncallValidate i => "/oncall/schedules/" ++ toString i ++ "/validate"
  | .correlationAnalyze a => "/correlation/analyze/" ++ pyStr a ++ "?window_minutes=30"
  | .correlationPatterns => "/correlation/patterns?hours=1&min_occurrences=1"
  | .correlationGroups => "/correlation/groups?hours=1&threshold=0.5"
  | .correlationTimeline fp => "/correlation/timeline/" ++ fp ++ "?hours=1"
  | .correlationFlapping r => "/correlation/flapping?rule_id=" ++ pyStr r ++ "&hours=1&threshold=1"
  | .correlationPredict r => "/correlation/predict/" ++ pyStr r ++ "?hours=1"
  | .escalations => "/escalations"
  | .escalationsPending => "/escalations/pending"
  | .escalationAccept i => "/escalations/" ++ toString i ++ "/accept"
  | .escalationResolve i => "/escalations/" ++ toString i ++ "/resolve"
  | .escalationReject i => "/escalations/" ++ toString i ++ "/reject"
  | .escalationsAlert a => "/escalations/alert/" ++ pyStr a
  | .escalationsStats => "/escalations/stats"

/-- One attempted HTTP request, instrumented with a snapshot of the `created`
registry at the moment the request is issued (so "recorded before this
operation was attempted" is a statement about the op log). -/
structure Op where
  method : String
  path : Path
  snap : Created
  deriving DecidableEq, Repr

/-- Phase markers for effects of `main` that are not HTTP requests. -/
inductive Ev
  | serverStart (port : Nat)
  | spawnWs
  | cleanupCalled
  | shutdownCalled (port : Nat)
  deriving DecidableEq, Repr

/-- Behaviour of the environment of the spawned node capture script
(`capture_ws_messages`): the `ws` module may be missing, the channel may be
unreachable, or some list of messages arrives before the deadline. -/
inductive WsEnv
  | noLib
  | unreachable
  | delivered (msgs : List String)
  deriving DecidableEq, Repr

deriving instance DecidableEq for Except

/-- The whole mutable state of one run of the slow harness:
the response oracle, the `created` registry, the instrumented op log, the
`results` list, phase markers, the module-level `_State` of the stubs
(`firing`, `webhook_hits`), the `alert_history_entry` dict, the clock, the
node capture environment, and a counter standing in for `uuid.uuid4()`. -/
structure SlowState where
  resps : List (Except String JVal)
  created : Created := {}
  ops : List Op := []
  results : List Outcome := []
  events : List Ev := []
  firing : Bool := true
  webhook_hits : List (String × String) := []
  alert_entry : Option Row := none
  now : Int := 0
  wsEnv : WsEnv := .noLib
  uuidCtr : Nat := 0
  deriving DecidableEq, Repr

/-- The harness computation type: explicit state passing plus Python
exceptions. A raised exception keeps the state mutated so far. -/
def M (A : Type) : Type := SlowState → Except String A × SlowState

/-- Sequencing: Python statement order; an uncaught exception short-circuits. -/
def M.bind {A B : Type} (m : M A) (f : A → M B) : M B := fun s =>
  match m s with
  | (Except.ok a, s1) => f a s1
  | (Except.error e, s1) => (Except.error e, s1)

/-- A value with no effect. -/
def M.pure {A : Type} (a : A) : M A := fun s => (Except.ok a, s)

instance : Monad M where
  pure := M.pure
  bind := M.bind

/-- `raise RuntimeError(e)`. -/
def throwM {A : Type} (e : String) : M A := fun s => (Except.error e, s)

/-- Read the current state. -/
def getS : M SlowState := fun s => (Except.ok s, s)

/-- Mutate the current state. -/
def modifyS (f : SlowState → SlowState) : M Unit := fun s => (Except.ok (), f s)

/-- Record a phase marker. -/
def emitEv (e : Ev) : M Unit :=
  modifyS fun s => { s with events := s.events ++ [e] }

/-- `time.sleep(n)`: the clock advances, nothing else happens. -/
def sleepM (n : Int) : M Unit :=
  modifyS fun s => { s with now := s.now + n }

/-- `uuid.uuid4().hex[:6]`: a fresh 6-character tag; modelled by a counter. -/
def freshHex : M String := fun s =>
  (Except.ok (toString s.uuidCtr), { s with uuidCtr := s.uuidCtr + 1 })

/-- `http(method, path, ...)` of the source: issue one request (logged with a
snapshot of `created`), consume the next oracle response; an oracle error is
the `RuntimeError` the source raises on `HTTPError`, and an exhausted oracle
is a transport failure (`urlopen` raising). -/
def http (method : String) (path : Path) : M JVal := fun s =>
  let logged := { s with ops := s.ops ++ [⟨method, path, s.created⟩] }
  match s.resps with
  | [] => (Except.error "transport error", logged)
  | r :: rest =>
    let s1 := { logged with resps := rest }
    match r with
    | Except.ok v => (Except.ok v, s1)
    | Except.error e => (Except.error e, s1)

/-- An `http` call whose result is read as `resp["data"]["id"]`; a response of
another shape raises (Python `KeyError`/`TypeError`). -/
def httpId (method : String) (path : Path) : M Nat := do
  let v ← http method path
  match v with
  | JVal.id n => pure n
  | _ => throwM "KeyError: id"

/-- An `http` call whose result is read as `resp["data"]["token"]` (and, for
the admin login, later `["data"]["user"]["id"]`). -/
def httpTok (method : String) (path : Path) : M (String × Nat) := do
  let v ← http method path
  match v with
  | JVal.tok t uid => pure (t, uid)
  | _ => throwM "KeyError: token"

/-- An `http` call whose result is read as `resp["data"]["data"]`, a list. -/
def httpRows (method : String) (path : Path) : M (List Row) := do
  let v ← http method path
  match v with
  | JVal.rows rs => pure rs
  | _ => throwM "KeyError: data"

/-- `check(name, fn)` of both scripts (slow lines 142-147, fast lines 70-75):
run `fn`; on normal return append `(name, "ok", None)` to `results`, on any
exception append `(name, "fail", str(e))`; never re-raise. -/
def check (name : String) (fn : M Unit) : M Unit := fun s =>
  match fn s with
  | (Except.ok _, s1) =>
    (Except.ok (), { s1 with results := s1.results ++ [⟨name, CStatus.ok, none⟩] })
  | (Except.error e, s1) =>
    (Except.ok (), { s1 with results := s1.results ++ [⟨name, CStatus.fail, some e⟩] })

/-- `try: body finally: fin` as Python runs it: `fin` always runs on the state
`body` left behind; an exception raised by `fin` replaces the exception of
`body`, otherwise the outcome of `body` is kept. -/
def tryFinally {A : Type} (body : M A) (fin : M Unit) : M A := fun s =>
  match body s with
  | (Except.ok a, s1) =>
    match fin s1 with
    | (Except.ok _, s2) => (Except.ok a, s2)
    | (Except.error e2, s2) => (Except.error e2, s2)
  | (Except.error e, s1) =>
    match fin s1 with
    | (Except.ok _, s2) => (Except.error e, s2)
    | (Except.error e2, s2) => (Except.error e2, s2)

/-- `try: m except Exception: pass` (the cleanup pattern). -/
def tryIgnore (m : M Unit) : M Unit := fun s => (Except.ok (), (m s).snd)

/-- Result of the pure timed model of `wait_for`: `success t` is `return True`
at instant `t`, `timeoutErr msg t` is `raise RuntimeError(msg)` at instant
`t`, and `diverge` marks the one run the source never finishes (a
non-positive step with the predicate false and predicate evaluation taken
as instantaneous). -/
inductive WaitRes
  | success (t : Int)
  | timeoutErr (msg : String) (t : Int)
  | diverge
  deriving DecidableEq, Repr

/-- A `wait_for` run, instrumented with the instants at which the predicate
was evaluated (in order). -/
structure WaitOut where
  res : WaitRes
  evals : List Int
  deriving DecidableEq, Repr

/-- The loop of `wait_for` (slow lines 95-101), predicate evaluation taken as
instantaneous and `time.sleep(step)` advancing the clock by `step`:
`while time.time() < deadline: if predicate(): return True; time.sleep(step)`
then `raise RuntimeError(f"timeout waiting for {label}")`. -/
def wait_for_go (p : Int → Bool) (deadline step : Int) (label : String) (t : Int) : WaitOut :=
  if _h : t < deadline then
    if p t then ⟨WaitRes.success t, [t]⟩
    else if _hs : step ≤ 0 then ⟨WaitRes.diverge, [t]⟩
    else
      let o := wait_for_go p deadline step label (t + step)
      ⟨o.res, t :: o.evals⟩
  else ⟨WaitRes.timeoutErr ("timeout waiting for " ++ label) t, []⟩
termination_by (deadline - t).toNat
decreasing_by omega

/-- `wait_for(predicate, timeout_s, step_s, label)` entered at instant
`start`: `deadline = time.time() + timeout_s`, then the loop. -/
def wait_for (p : Int → Bool) (timeout_s step_s : Int) (label : String) (start : Int) : WaitOut :=
  wait_for_go p (start + timeout_s) step_s label start

/-- The same `wait_for` loop running inside the harness monad, where the
predicate performs HTTP calls and reads harness state. The fuel argument
only bounds the recursion; `wait_forM` below passes more fuel than the
`timeout / step` iterations the deadline admits, so the fuel branch is dead
for every positive step. -/
def wait_forMGo (pred : M Bool) (deadline step_s : Int) (label : String) : Nat → M Bool
  | 0 => throwM "poller fuel exhausted"
  | Nat.succ fuel => do
    let s ← getS
    if s.now < deadline then
      let b ← pred
      if b then pure true
      else do
        sleepM step_s
        wait_forMGo pred deadline step_s label fuel
    else throwM ("timeout waiting for " ++ label)

/-- Monadic `wait_for(predicate, timeout_s, step_s, label)`. -/
def wait_forM (pred : M Bool) (timeout_s step_s : Int) (label : String) : M Bool := do
  let s ← getS
  wait_forMGo pred (s.now + timeout_s) step_s label (timeout_s.toNat / (step_s.toNat.max 1) + 2)

/-- `create_test_user` (slow lines 158-171): create the user, record its id
in `created`, then log in as that user (a later, fallible call). -/
def create_test_user : M (String × String) := do
  let h ← freshHex
  let username := "it_user_" ++ h
  let uid ← httpId "POST" Path.users
  modifyS fun s => { s with created := { s.created with user_id := some uid } }
  let ut ← httpTok "POST" Path.authLogin
  pure (ut.fst, username)

/-- `create_sla_config` (slow lines 173-181). -/
def create_sla_config : M Unit := do
  let _h ← freshHex
  let i ← httpId "POST" Path.slaConfigs
  modifyS fun s => { s with created := { s.created with sla_config_id := some i } }

/-- `create_template` (slow lines 183-192). -/
def create_template : M Unit := do
  let _h ← freshHex
  let i ← httpId "POST" Path.templates
  modifyS fun s => { s with created := { s.created with template_id := some i } }

/-- `create_channel` (slow lines 194-203). -/
def create_channel : M Unit := do
  let _h ← freshHex
  let i ← httpId "POST" Path.channels
  modifyS fun s => { s with created := { s.created with channel_id := some i } }

/-- `create_rule_and_bind` (slow lines 205-225): create the rule, record its
id in `created`, then bind channels (a later, fallible call). -/
def create_rule_and_bind : M Unit := do
  let _h ← freshHex
  let rid ← httpId "POST" Path.alertRules
  modifyS fun s => { s with created := { s.created with rule_id := some rid } }
  let _ ← http "POST" (Path.ruleBindings rid)
  pure ()

/-- `has_firing` inside `wait_for_firing` (slow lines 230-236). -/
def has_firing : M Bool := do
  let data ← httpRows "GET" Path.alertHistory
  let s ← getS
  match data.find? (fun r => s.created.rule_id == some r.rule_id && r.status == "firing") with
  | some r => do
    modifyS fun st => { st with alert_entry := some r }
    pure true
  | none => pure false

/-- `wait_for_firing` (slow lines 229-237). -/
def wait_for_firing : M Unit := do
  let _ ← wait_forM has_firing 140 5 "firing alert history"
  pure ()

/-- `wait_for_webhook` (slow lines 239-240). -/
def wait_for_webhook (minCount : Nat) : M Unit := do
  let _ ← wait_forM
    (do
      let s ← getS
      pure (decide (minCount ≤ s.webhook_hits.length)))
    140 5 "webhook delivery"
  pure ()

/-- `has_resolved` inside `wait_for_resolved` (slow lines 243-248). -/
def has_resolved : M Bool := do
  let data ← httpRows "GET" Path.alertHistory
  let s ← getS
  pure (data.any fun r => s.created.rule_id == some r.rule_id && r.status == "resolved")

/-- `wait_for_resolved` (slow lines 242-249). -/
def wait_for_resolved : M Unit := do
  let _ ← wait_forM has_resolved 140 5 "resolved alert history"
  pure ()

/-- `sla_breach_check` (slow lines 251-255). -/
def sla_breach_check : M Unit := do
  let _ ← http "POST" Path.slaBreachesCheck
  let data ← httpRows "GET" Path.slaBreaches
  if data.isEmpty then throwM "expected SLA breach record" else pure ()

/-- The transcript the node script of `capture_ws_messages` (slow lines
104-132) leaves in the handoff file, as a function of its environment:
`NO_WEBSOCKET` when `require` finds no WebSocket implementation; nothing at
all (an empty file) when the connection to the channel fails, since
`onmessage` then never fires and only the deadline write of `msgs.join`
happens, over an empty `msgs`; otherwise the arrived messages joined with a
newline, stopping once `expected_count` messages have arrived. -/
def captureContent : WsEnv → Nat → String
  | WsEnv.noLib, _ => "NO_WEBSOCKET"
  | WsEnv.unreachable, _ => ""
  | WsEnv.delivered msgs, n =>
    String.intercalate "\n" (if n ≤ msgs.length then msgs.take n else msgs)

/-- Python `pat in s` for a nonempty pattern. -/
def containsSub (s pat : String) : Bool := (s.splitOn pat).length != 1

/-- The pure part of `ws_check` (slow lines 257-267), given the text read
back from the handoff file. -/
def ws_check_content (content : String) : Except String Unit :=
  if content == "NO_WEBSOCKET" || content == "" then
    Except.error "no websocket messages captured"
  else if !(containsSub content "\"type\":\"alert\"") then
    Except.error "missing alert websocket message"
  else if !(containsSub content "\"type\":\"ticket\"") then
    Except.error "missing ticket websocket message"
  else Except.ok ()

/-- `ws_check(proc, path)` as the scenario runs it, with the capture run of
slow line 378 (`capture_ws_messages(3, 160)`) determining the file content.
(`proc.wait(timeout=130)` is real-time subprocess interplay, outside this
model.) -/
def ws_checkM : M Unit := fun s => (ws_check_content (captureContent s.wsEnv 3), s)

/-- `oncall_flow` (slow lines 269-300). The admin user id from the login
response is used only in a request body, which the op log does not record. -/
def oncall_flow (adminUid : Nat) : M Unit := do
  let _h ← freshHex
  let sid ← httpId "POST" Path.oncallSchedules
  let _ ← http "POST" (Path.oncallMembers sid)
  let _ ← http "GET" (Path.oncallMembers sid)
  let _ ← http "POST" (Path.oncallGenerateRotations sid)
  let _ ← http "GET" (Path.oncallAssignments sid)
  let _ ← http "GET" Path.oncallCurrent
  let _ ← http "GET" Path.oncallWho
  let _ ← http "GET" Path.oncallReport
  let _ ← http "POST" (Path.oncallGenerate sid)
  let _ ← http "GET" (Path.oncallCoverage sid)
  let _ ← http "GET" (Path.oncallSuggest sid)
  let _ ← http "GET" (Path.oncallValidate sid)
  let _ ← http "DELETE" (Path.oncallScheduleId sid)
  let _ := adminUid
  pure ()

/-- `correlation_flow` (slow lines 302-312). -/
def correlation_flow : M Unit := do
  let s ← getS
  let alert_id := s.alert_entry.map fun r => r.id
  let fingerprint := s.alert_entry.bind fun r => r.fingerprint
  let _ ← http "GET" (Path.correlationAnalyze alert_id)
  let _ ← http "GET" Path.correlationPatterns
  let _ ← http "GET" Path.correlationGroups
  match fingerprint with
  | some fp =>
    if fp == "" then pure ()
    else do
      let _ ← http "GET" (Path.correlationTimeline fp)
      pure ()
  | none => pure ()
  let s2 ← getS
  let _ ← http "GET" (Path.correlationFlapping s2.created.rule_id)
  let _ ← http "GET" (Path.correlationPredict s2.created.rule_id)
  pure ()

/-- `escalation_flow` (slow lines 314-340): both escalations are created and
driven through accept/resolve and reject; their ids stay in the locals
`esc_id` and `esc2_id`, never in `created` (whose `escalation_id` no line of
the source assigns). -/
def escalation_flow (user_token username : String) : M Unit := do
  let s ← getS
  let alert_id := s.alert_entry.map fun r => r.id
  let esc_id ← httpId "POST" Path.escalations
  let _ ← http "GET" Path.escalationsPending
  let _ ← http "POST" (Path.escalationAccept esc_id)
  let _ ← http "POST" (Path.escalationResolve esc_id)
  let esc2_id ← httpId "POST" Path.escalations
  let _ ← http "POST" (Path.escalationReject esc2_id)
  let _ ← http "GET" (Path.escalationsAlert alert_id)
  let _ ← http "GET" Path.escalations
  let _ ← http "GET" Path.escalationsStats
  let _ := (user_token, username)
  pure ()

/-- `create_ticket_for_ws` (slow lines 342-348). -/
def create_ticket_for_ws : M Unit := do
  let _h ← freshHex
  let _ ← http "POST" Path.tickets
  pure ()

/-- One `if created[k]: try: http("DELETE", ...) except Exception: pass`
block of `cleanup`: Python truthiness skips both `None` and the id `0`. -/
def delIfTruthy (mk : Nat → Path) (o : Option Nat) : M Unit :=
  match o with
  | none => pure ()
  | some i =>
    if i == 0 then pure ()
    else tryIgnore (do
      let _ ← http "DELETE" (mk i)
      pure ())

/-- `cleanup` (slow lines 350-375): five guarded, failure-swallowing DELETE
attempts, in registry order. -/
def cleanup : M Unit := do
  emitEv Ev.cleanupCalled
  let s ← getS
  delIfTruthy Path.alertRuleId s.created.rule_id
  delIfTruthy Path.channelId s.created.channel_id
  delIfTruthy Path.templateId s.created.template_id
  delIfTruthy Path.slaConfigId s.created.sla_config_id
  delIfTruthy Path.userId s.created.user_id

/-- The summary loop of both scripts (slow lines 411-419, fast lines 274-282):
`ok = True`, then `ok = False` for every outcome whose status is not `"ok"`. -/
def summaryOk (rs : List Outcome) : Bool :=
  rs.foldl (fun ok r => if r.status == CStatus.ok then ok else false) true

/-- The process exit status the summary phase produces: `sys.exit(1)` (slow
lines 421-422) or `raise SystemExit(1)` (fast lines 284-285) when some
outcome failed, falling off `main` (exit 0) otherwise. -/
def exitCodeOf (rs : List Outcome) : Nat := if summaryOk rs then 0 else 1

/-- `main` of `integration_smoke_slow.py` (lines 135-422): stub startup,
setup (login, business groups) outside any try block, then the guarded
scenario sequence with `cleanup` and the two stub shutdowns in `finally`,
then the summary. The returned number is the process exit status. -/
def mainSlow : M Nat := do
  emitEv (Ev.serverStart 18081)
  emitEv (Ev.serverStart 18082)
  let login ← httpTok "POST" Path.authLogin
  let groups ← httpRows "GET" Path.businessGroups
  let _group_id ← match groups with
    | [] => throwM "no business group found"
    | g :: _ => pure g.id
  tryFinally
    (do
      emitEv Ev.spawnWs
      let uu ← create_test_user
      check "create_sla_config" create_sla_config
      check "create_template" create_template
      check "create_channel" create_channel
      check "create_rule_and_bind" create_rule_and_bind
      check "alert_firing_history" wait_for_firing
      check "webhook_firing_delivery" (wait_for_webhook 1)
      check "ticket_ws_emit" create_ticket_for_ws
      modifyS fun s => { s with firing := false }
      check "alert_resolved_history" wait_for_resolved
      check "webhook_resolved_delivery" (wait_for_webhook 2)
      sleepM 70
      check "sla_breach_check" sla_breach_check
      check "websocket_notifications" ws_checkM
      check "oncall_flow" (oncall_flow login.snd)
      check "correlation_flow" correlation_flow
      check "escalation_flow" (escalation_flow uu.fst uu.snd)
      let s ← getS
      match s.alert_entry with
      | some r =>
        if r.id == 0 then pure ()
        else do
          let _ ← http "GET" (Path.slaAlerts r.id)
          pure ()
      | none => pure ()
      let _ ← http "GET" Path.slaReport
      pure ())
    (do
      cleanup
      emitEv (Ev.shutdownCalled 18081)
      emitEv (Ev.shutdownCalled 18082))
  let s ← getS
  pure (exitCodeOf s.results)

/-- The op log a computation produces on its own, run from an empty log. -/
def opsOf {A : Type} (m : M A) (s : SlowState) : List Op :=
  (m { s with ops := [] }).snd.ops

/-- The state at harness start (slow lines 135-140): given oracle and capture
environment, everything else as the source initialises it. -/
def initState (resps : List (Except String JVal)) (ws : WsEnv) : SlowState :=
  { resps := resps, wsEnv := ws }

/-- One sample of the Metrics Query Stub response vector:
`{"metric": {"__name__": "up", "instance": "stub"}, "value": [now, "1"]}`. -/
structure QuerySample where
  metric_name : String
  metric_instance : String
  time : Int
  value : String
  deriving DecidableEq, Repr

/-- The `data` object of the stub response. -/
structure QueryData where
  resultType : String
  result : List QuerySample
  deriving DecidableEq, Repr

/-- The whole body `PromStubHandler._handle_query` writes (slow lines 31-50). -/
structure QueryBody where
  status : String
  data : QueryData
  deriving DecidableEq, Repr

/-- `PromStubHandler._handle_query` (slow lines 31-50) as a function of the
`_State.firing` flag and the current clock. -/
def handle_query (firing : Bool) (now : Int) : QueryBody :=
  { status := "success"
    data := { resultType := "vector"
              result := if firing then [⟨"up", "stub", now, "1"⟩] else [] } }

/-- The shared `_State` of the two stub handlers (slow lines 19-21). -/
structure StubSt where
  firing : Bool := true
  webhook_hits : List (String × String) := []
  deriving DecidableEq, Repr

/-- The operations that touch `_State` while the stubs serve: a GET on the
query path (`PromStubHandler._handle_query`), an accepted POST to the webhook
stub (`WebhookStubHandler.do_POST`, slow lines 56-63), and the runner's
`_State.firing = ...` assignment (slow line 390). -/
inductive StubOp
  | query (now : Int)
  | post (path body : String)
  | setFiring (b : Bool)
  deriving DecidableEq, Repr

/-- One step of the stub state machine; a query also yields the response body. -/
def stubStep (st : StubSt) : StubOp → StubSt × Option QueryBody
  | StubOp.query now => (st, some (handle_query st.firing now))
  | StubOp.post p b => ({ st with webhook_hits := st.webhook_hits ++ [(p, b)] }, none)
  | StubOp.setFiring b => ({ st with firing := b }, none)

/-- A run of the stub machine, collecting the query responses in order. -/
def stubRun (st : StubSt) : List StubOp → StubSt × List QueryBody
  | [] => (st, [])
  | op :: ops =>
    let s1 := stubStep st op
    let s2 := stubRun s1.fst ops
    (s2.fst, (match s1.snd with | some b => [b] | none => []) ++ s2.snd)

/-- The outcome the Scenario Runner boundary records for a scenario result:
`ok` for a normal return, `fail` with the description for a raise. -/
def outcomeFor (name : String) : Except String Unit → Outcome
  | Except.ok _ => ⟨name, CStatus.ok, none⟩
  | Except.error e => ⟨name, CStatus.fail, some e⟩

/-- Whether the oracle makes the setup phase of `mainSlow` (login, business
groups — slow lines 149-156, before the `try`) raise: any transport or HTTP
failure, a response of the wrong shape, or an empty business-group list. -/
def setupFailsB : List (Except String JVal) → Bool
  | [] => true
  | Except.error _ :: _ => true
  | Except.ok (JVal.tok _ _) :: rest =>
    match rest with
    | [] => true
    | Except.error _ :: _ => true
    | Except.ok (JVal.rows rs) :: _ => rs.isEmpty
    | Except.ok _ :: _ => true
  | Except.ok _ :: _ => true

/-- An oracle for `escalation_flow` on which every request succeeds: the two
escalation creations return ids `7` and `8`, all other responses are opaque. -/
def escCEx : SlowState :=
  initState
    [Except.ok (JVal.id 7), Except.ok JVal.unit, Except.ok JVal.unit, Except.ok JVal.unit,
     Except.ok (JVal.id 8), Except.ok JVal.unit, Except.ok JVal.unit, Except.ok JVal.unit,
     Except.ok JVal.unit]
    WsEnv.noLib

/-- A run of `create_rule_and_bind` whose rule creation succeeds with id `5`. -/
def ruleOkState : SlowState :=
  initState [Except.ok (JVal.id 5), Except.ok JVal.unit] WsEnv.noLib

/-- A registry holding one present entry whose id is `0` (Python-falsy). -/
def zeroIdState : SlowState :=
  { initState [Except.ok JVal.unit] WsEnv.noLib with created := { rule_id := some 0 } }

/-- A full registry facing a platform that rejects every deletion. -/
def cleanupWitnessState : SlowState :=
  { initState (List.replicate 5 (Except.error "HTTP 404: not found")) WsEnv.noLib with
    created :=
      { rule_id := some 1, channel_id := some 2, template_id := some 3,
        sla_config_id := some 4, user_id := some 5 } }

/-- An oracle whose very first response (the admin login) is an HTTP error. -/
def loginFailOracle : SlowState :=
  initState [Except.error "HTTP 500: internal error"] WsEnv.noLib

/-- C1: for every scenario function `fn` and every harness state, `check`
itself returns normally (no failure crosses the Scenario Runner boundary)
and its whole effect beyond the scenario effects is to append exactly one
outcome to `results`: status `ok` if `fn` returned, status `fail` carrying
the description of the failure if `fn` raised. -/
theorem check_records_exactly_one_outcome (name : String) (fn : M Unit) (s : SlowState) :
    (check name fn s).fst = Except.ok () ∧
    (check name fn s).snd =
      { (fn s).snd with results := (fn s).snd.results ++ [outcomeFor name (fn s).fst] } := by
  unfold check
  rcases h : fn s with ⟨e, s1⟩
  cases e <;> simp [h, outcomeFor]

theorem summaryOk_foldl (rs : List Outcome) :
    ∀ acc : Bool,
      rs.foldl (fun ok r => if r.status == CStatus.ok then ok else false) acc
        = (acc && rs.all fun r => r.status == CStatus.ok) := by
  induction rs with
  | nil => intro acc; simp
  | cons r rs ih =>
    intro acc
    simp only [List.foldl_cons, List.all_cons, ih]
    cases h : (r.status == CStatus.ok) <;> simp [h]

theorem status_not_ok (c : CStatus) : ¬c = CStatus.ok ↔ c = CStatus.fail := by
  cases c <;> simp

/-- C8: the summary phase yields process exit status 0 exactly when every
recorded outcome has status ok; any recorded fail yields a non-zero status. -/
theorem summary_exit_zero_iff (rs : List Outcome) :
    (exitCodeOf rs = 0 ↔ ∀ r ∈ rs, r.status = CStatus.ok) ∧
    (exitCodeOf rs ≠ 0 ↔ ∃ r ∈ rs, r.status = CStatus.fail) := by
  have hok : exitCodeOf rs = 0 ↔ summaryOk rs = true := by
    unfold exitCodeOf
    split <;> simp_all
  have hall : summaryOk rs = true ↔ ∀ r ∈ rs, r.status = CStatus.ok := by
    unfold summaryOk
    rw [summaryOk_foldl]
    simp [List.all_eq_true]
  have hmain := hok.trans hall
  refine ⟨hmain, ?_⟩
  constructor
  · intro hne
    by_contra hno
    push_neg at hno
    apply hne
    rw [hmain]
    intro r hr
    have hnf := hno r hr
    cases hst : r.status
    · rfl
    · exact absurd hst hnf
  · rintro ⟨r, hr, hfail⟩ h0
    rw [hmain] at h0
    have h1 := h0 r hr
    rw [hfail] at h1
    exact CStatus.noConfusion h1

/-- C9 counterexample: an unreachable notification channel leaves the
transcript empty — the same transcript as connecting and receiving nothing —
and even the explicit `NO_WEBSOCKET` marker (written only when the WebSocket
client library is missing) is reported by the assertion step with the very
same failure reason as an empty transcript. -/
theorem ws_unreachable_indistinguishable :
    captureContent WsEnv.unreachable 3 = "" ∧
    captureContent WsEnv.unreachable 3 = captureContent (WsEnv.delivered []) 3 ∧
    ws_check_content (captureContent WsEnv.noLib 3) =
      ws_check_content (captureContent (WsEnv.delivered []) 3) := by
  refine ⟨rfl, by decide, by decide⟩

/-- C9 (amended): the explicit `NO_WEBSOCKET` marker arises exactly when the
WebSocket client library is unavailable and differs from the empty
transcript; an unreachable channel produces the empty transcript, and the
`ws_check` assertion reports the same "no websocket messages captured"
reason for the marker and for the empty transcript. -/
theorem ws_marker_behaviour (n : Nat) :
    captureContent WsEnv.noLib n = "NO_WEBSOCKET" ∧
    captureContent WsEnv.unreachable n = "" ∧
    captureContent WsEnv.noLib n ≠ captureContent WsEnv.unreachable n ∧
    ws_check_content "NO_WEBSOCKET" = Except.error "no websocket messages captured" ∧
    ws_check_content "" = Except.error "no websocket messages captured" := by
  refine ⟨rfl, rfl, ?_, by decide, by decide⟩
  show ("NO_WEBSOCKET" : String) ≠ ""
  decide

theorem stubStep_firing_of_no_set (st : StubSt) (op : StubOp) (h : st.firing = false)
    (hop : ∀ b, op = StubOp.setFiring b → b = false) :
    (stubStep st op).fst.firing = false := by
  cases op with
  | query now => exact h
  | post p b => exact h
  | setFiring b => exact hop b rfl ▸ rfl

theorem stubRun_no_refire (ops : List StubOp) :
    ∀ st : StubSt, st.firing = false → StubOp.setFiring true ∉ ops →
      ∀ b ∈ (stubRun st ops).snd, b.data.result = [] := by
  induction ops with
  | nil =>
    intro st _ _ b hb
    simp [stubRun] at hb
  | cons op ops ih =>
    intro st hf hno b hb
    have hno2 : StubOp.setFiring true ∉ ops := fun hm => hno (List.mem_cons_of_mem _ hm)
    cases op with
    | query now =>
      simp [stubRun, stubStep] at hb
      rcases hb with rfl | hb
      · simp [handle_query, hf]
      · exact ih st hf hno2 b hb
    | post p bd =>
      simp [stubRun, stubStep] at hb
      exact ih _ (by simpa using hf) hno2 b hb
    | setFiring bb =>
      have hbb : bb = false := by
        cases bb
        · rfl
        · exact absurd (List.mem_cons_self _ _) hno
      subst hbb
      simp [stubRun, stubStep] at hb
      exact ih _ rfl hno2 b hb

/-- C6: a metrics query returns exactly one vector sample named `up` with the
current timestamp and value `"1"` while the firing flag is true, and an
empty result vector while it is false; once the flag is false, every
subsequent query in a run that never sets it back to true reports zero
result vectors. -/
theorem metrics_query_firing_toggle (now : Int) (st : StubSt) (ops : List StubOp) :
    (handle_query true now).data.result = [⟨"up", "stub", now, "1"⟩] ∧
    (handle_query false now).data.result = [] ∧
    (st.firing = false → StubOp.setFiring true ∉ ops →
      ∀ b ∈ (stubRun st ops).snd, b.data.result = []) :=
  ⟨rfl, rfl, fun hf hno => stubRun_no_refire ops st hf hno⟩

theorem stubRun_hits_mono (ops : List StubOp) :
    ∀ st : StubSt, st.webhook_hits <+: (stubRun st ops).fst.webhook_hits := by
  induction ops with
  | nil => intro st; simp [stubRun]
  | cons op ops ih =>
    intro st
    have h2 := ih (stubStep st op).fst
    refine List.IsPrefix.trans ?_ (by simpa [stubRun] using h2)
    cases op with
    | query now => simp [stubStep]
    | post p b => simp [stubStep]
    | setFiring b => simp [stubStep]

/-- C7: each accepted POST to the Generic Webhook Stub appends exactly one
`(path, body)` entry to the delivery log; no stub operation removes or
rewrites entries (the old log is a prefix after any step and any run), so
the log length is monotonically non-decreasing. -/
theorem webhook_log_append_only (st : StubSt) (p b : String) (op : StubOp) (ops : List StubOp) :
    (stubStep st (StubOp.post p b)).fst.webhook_hits = st.webhook_hits ++ [(p, b)] ∧
    st.webhook_hits <+: (stubStep st op).fst.webhook_hits ∧
    st.webhook_hits <+: (stubRun st ops).fst.webhook_hits ∧
    st.webhook_hits.length ≤ (stubRun st ops).fst.webhook_hits.length := by
  refine ⟨rfl, ?_, stubRun_hits_mono ops st, (stubRun_hits_mono ops st).length_le⟩
  cases op with
  | query now => simp [stubStep]
  | post p2 b2 => simp [stubStep]
  | setFiring b2 => simp [stubStep]

theorem wait_for_go_spec (p : Int → Bool) (deadline step : Int) (label : String)
    (hs : 0 < step) (t : Int) :
    (∃ u, (wait_for_go p deadline step label t).res = WaitRes.success u ∧
      t ≤ u ∧ u < deadline) ∨
    (∃ u, (wait_for_go p deadline step label t).res =
        WaitRes.timeoutErr ("timeout waiting for " ++ label) u ∧
      deadline ≤ u ∧ (u = t ∨ u < deadline + step)) := by
  rw [wait_for_go]
  split
  next h =>
    split
    next hp =>
      left
      exact ⟨t, rfl, le_refl t, h⟩
    next hp =>
      split
      next h0 => omega
      next h0 =>
        have ih := wait_for_go_spec p deadline step label hs (t + step)
        rcases ih with ⟨u, hres, htu, hud⟩ | ⟨u, hres, hdu, hcase⟩
        · left
          exact ⟨u, by simpa using hres, by omega, hud⟩
        · right
          refine ⟨u, by simpa using hres, hdu, Or.inr ?_⟩
          rcases hcase with rfl | hlt
          · omega
          · exact hlt
  next h =>
    right
    exact ⟨t, rfl, by omega, Or.inl rfl⟩
termination_by (deadline - t).toNat
decreasing_by omega

/-- C2: for every predicate and every positive step, `wait_for` either
returns success within `timeout + step` of its start instant, or raises the
timeout error carrying the label — within `max timeout 0 + step`; it never
reaches the divergent run, so it never blocks indefinitely. -/
theorem wait_for_terminates_or_times_out (p : Int → Bool) (timeout_s step_s : Int)
    (label : String) (start : Int) (hs : 0 < step_s) :
    (∃ t, (wait_for p timeout_s step_s label start).res = WaitRes.success t ∧
      t - start < timeout_s + step_s) ∨
    (∃ t, (wait_for p timeout_s step_s label start).res =
        WaitRes.timeoutErr ("timeout waiting for " ++ label) t ∧
      t - start < max timeout_s 0 + step_s) := by
  have h := wait_for_go_spec p (start + timeout_s) step_s label hs start
  unfold wait_for
  rcases h with ⟨u, hres, htu, hud⟩ | ⟨u, hres, hdu, hcase⟩
  · left
    exact ⟨u, hres, by omega⟩
  · right
    refine ⟨u, hres, ?_⟩
    rcases hcase with rfl | hlt
    · omega
    · omega

def predNever : Int → Bool := fun _ => false

theorem wait_for_terminates_or_times_out_witness :
    (∃ t, (wait_for predNever 140 5 "firing alert history" 0).res = WaitRes.success t ∧
      t - 0 < 140 + 5) ∨
    (∃ t, (wait_for predNever 140 5 "firing alert history" 0).res =
        WaitRes.timeoutErr ("timeout waiting for " ++ "firing alert history") t ∧
      t - 0 < max 140 0 + 5) :=
  wait_for_terminates_or_times_out predNever 140 5 "firing alert history" 0 (by decide)

/-- C10: with a non-positive timeout, `wait_for` raises the timeout error at
its start instant with the predicate never evaluated; with a positive
timeout, the predicate is evaluated immediately at the start instant before
any sleep, and a predicate already true at entry yields success at the start
instant with exactly one evaluation. -/
theorem wait_for_entry_behaviour (p : Int → Bool) (timeout_s step_s : Int)
    (label : String) (start : Int) :
    (timeout_s ≤ 0 →
      wait_for p timeout_s step_s label start =
        ⟨WaitRes.timeoutErr ("timeout waiting for " ++ label) start, []⟩) ∧
    (0 < timeout_s →
      (wait_for p timeout_s step_s label start).evals.head? = some start ∧
      (p start = true →
        wait_for p timeout_s step_s label start = ⟨WaitRes.success start, [start]⟩)) := by
  constructor
  · intro h
    unfold wait_for
    rw [wait_for_go]
    have hnot : ¬start < start + timeout_s := by omega
    simp [hnot]
  · intro h
    have hlt : start < start + timeout_s := by omega
    refine ⟨?_, ?_⟩
    · unfold wait_for
      rw [wait_for_go]
      by_cases hp : p start
      · simp [hlt, hp]
      · by_cases h0 : step_s ≤ 0
        · simp [hlt, hp, h0]
        · simp [hlt, hp, h0]
    · intro hp
      unfold wait_for
      rw [wait_for_go]
      simp [hlt, hp]

def predNow : Int → Bool := fun t => decide (0 ≤ t)

theorem wait_for_entry_behaviour_witness :
    (wait_for predNever 0 5 "webhook delivery" 3 =
      ⟨WaitRes.timeoutErr ("timeout waiting for " ++ "webhook delivery") 3, []⟩) ∧
    (wait_for predNow 140 5 "resolved alert history" 2 = ⟨WaitRes.success 2, [2]⟩) :=
  ⟨(wait_for_entry_behaviour predNever 0 5 "webhook delivery" 3).1 (by decide),
   ((wait_for_entry_behaviour predNow 140 5 "resolved alert history" 2).2 (by decide)).2 (by decide)⟩

theorem bind_apply {A B : Type} (m : M A) (f : A → M B) (s : SlowState) :
    (m >>= f) s =
      match m s with
      | (Except.ok a, s1) => f a s1
      | (Except.error e, s1) => (Except.error e, s1) := rfl

theorem pure_apply {A : Type} (a : A) (s : SlowState) : (pure a : M A) s = (Except.ok a, s) := rfl

theorem crb_bindings_snap (s : SlowState) :
    ∀ op ∈ opsOf create_rule_and_bind s, ∀ i, op.path = Path.ruleBindings i →
      op.snap.rule_id = some i := by
  obtain ⟨resps, created, ops, results, events, firing, hits, entry, now, ws, ctr⟩ := s
  intro op hop i hpath
  rcases resps with _ | ⟨r, rest⟩
  · simp [opsOf, create_rule_and_bind, freshHex, httpId, http, throwM, modifyS,
      bind_apply, pure_apply] at hop
    subst hop
    simp at hpath
  · rcases r with e | v
    · simp [opsOf, create_rule_and_bind, freshHex, httpId, http, throwM, modifyS,
        bind_apply, pure_apply] at hop
      subst hop
      simp at hpath
    · rcases v with n | ⟨t, uid⟩ | rs | _
      · rcases rest with _ | ⟨r2, rest2⟩
        · simp [opsOf, create_rule_and_bind, freshHex, httpId, http, throwM, modifyS,
            bind_apply, pure_apply] at hop
          rcases hop with rfl | rfl
          · simp at hpath
          · injection hpath with h
            subst h
            simp
        · rcases r2 with e2 | v2
          · simp [opsOf, create_rule_and_bind, freshHex, httpId, http, throwM, modifyS,
              bind_apply, pure_apply] at hop
            rcases hop with rfl | rfl
            · simp at hpath
            · injection hpath with h
              subst h
              simp
          · simp [opsOf, create_rule_and_bind, freshHex, httpId, http, throwM, modifyS,
              bind_apply, pure_apply] at hop
            rcases hop with rfl | rfl
            · simp at hpath
            · injection hpath with h
              subst h
              simp
      · simp [opsOf, create_rule_and_bind, freshHex, httpId, http, throwM, modifyS,
          bind_apply, pure_apply] at hop
        subst hop
        simp at hpath
      · simp [opsOf, create_rule_and_bind, freshHex, httpId, http, throwM, modifyS,
          bind_apply, pure_apply] at hop
        subst hop
        simp at hpath
      · simp [opsOf, create_rule_and_bind, freshHex, httpId, http, throwM, modifyS,
          bind_apply, pure_apply] at hop
        subst hop
        simp at hpath

theorem ctu_login_snap (s : SlowState) :
    ∀ op ∈ opsOf create_test_user s, op.path = Path.authLogin → op.snap.user_id ≠ none := by
  obtain ⟨resps, created, ops, results, events, firing, hits, entry, now, ws, ctr⟩ := s
  intro op hop hpath
  rcases resps with _ | ⟨r, rest⟩
  · simp [opsOf, create_test_user, freshHex, httpId, httpTok, http, throwM, modifyS,
      bind_apply, pure_apply] at hop
    subst hop
    simp at hpath
  · rcases r with e | v
    · simp [opsOf, create_test_user, freshHex, httpId, httpTok, http, throwM, modifyS,
        bind_apply, pure_apply] at hop
      subst hop
      simp at hpath
    · rcases v with n | ⟨t, uid⟩ | rs | _
      · rcases rest with _ | ⟨r2, rest2⟩
        · simp [opsOf, create_test_user, freshHex, httpId, httpTok, http, throwM, modifyS,
            bind_apply, pure_apply] at hop
          rcases hop with rfl | rfl
          · simp at hpath
          · simp
        · rcases r2 with e2 | v2
          · simp [opsOf, create_test_user, freshHex, httpId, httpTok, http, throwM, modifyS,
              bind_apply, pure_apply] at hop
            rcases hop with rfl | rfl
            · simp at hpath
            · simp
          · rcases v2 with n2 | ⟨t2, uid2⟩ | rs2 | _ <;>
              simp [opsOf, create_test_user, freshHex, httpId, httpTok, http, throwM, modifyS,
                bind_apply, pure_apply] at hop <;>
              rcases hop with rfl | rfl <;> simp_all
      · simp [opsOf, create_test_user, freshHex, httpId, httpTok, http, throwM, modifyS,
          bind_apply, pure_apply] at hop
        subst hop
        simp at hpath
      · simp [opsOf, create_test_user, freshHex, httpId, httpTok, http, throwM, modifyS,
          bind_apply, pure_apply] at hop
        subst hop
        simp at hpath
      · simp [opsOf, create_test_user, freshHex, httpId, httpTok, http, throwM, modifyS,
          bind_apply, pure_apply] at hop
        subst hop
        simp at hpath

theorem csc_records (s : SlowState) :
    (create_sla_config s).fst = Except.ok () →
    (create_sla_config s).snd.created.sla_config_id ≠ none := by
  obtain ⟨resps, created, ops, results, events, firing, hits, entry, now, ws, ctr⟩ := s
  intro h
  rcases resps with _ | ⟨r, rest⟩
  · simp [create_sla_config, freshHex, httpId, http, throwM, modifyS,
      bind_apply, pure_apply] at h
  · rcases r with e | v
    · simp [create_sla_config, freshHex, httpId, http, throwM, modifyS,
        bind_apply, pure_apply] at h
    · rcases v with n | ⟨t, uid⟩ | rs | _ <;>
        simp [create_sla_config, freshHex, httpId, http, throwM, modifyS,
          bind_apply, pure_apply] at h ⊢

theorem ctm_records (s : SlowState) :
    (create_template s).fst = Except.ok () →
    (create_template s).snd.created.template_id ≠ none := by
  obtain ⟨resps, created, ops, results, events, firing, hits, entry, now, ws, ctr⟩ := s
  intro h
  rcases resps with _ | ⟨r, rest⟩
  · simp [create_template, freshHex, httpId, http, throwM, modifyS,
      bind_apply, pure_apply] at h
  · rcases r with e | v
    · simp [create_template, freshHex, httpId, http, throwM, modifyS,
        bind_apply, pure_apply] at h
    · rcases v with n | ⟨t, uid⟩ | rs | _ <;>
        simp [create_template, freshHex, httpId, http, throwM, modifyS,
          bind_apply, pure_apply] at h ⊢

theorem cch_records (s : SlowState) :
    (create_channel s).fst = Except.ok () →
    (create_channel s).snd.created.channel_id ≠ none := by
  obtain ⟨resps, created, ops, results, events, firing, hits, entry, now, ws, ctr⟩ := s
  intro h
  rcases resps with _ | ⟨r, rest⟩
  · simp [create_channel, freshHex, httpId, http, throwM, modifyS,
      bind_apply, pure_apply] at h
  · rcases r with e | v
    · simp [create_channel, freshHex, httpId, http, throwM, modifyS,
        bind_apply, pure_apply] at h
    · rcases v with n | ⟨t, uid⟩ | rs | _ <;>
        simp [create_channel, freshHex, httpId, http, throwM, modifyS,
          bind_apply, pure_apply] at h ⊢

/-- C3 (amended): for the resource kinds the registry tracks and the slow
scenarios populate, the created id is recorded in `created` before any
later fallible call is attempted — in `create_rule_and_bind` every attempted
binding call already carries the rule id in its registry snapshot, in
`create_test_user` the user-login call already carries the user id, and each
single-request creation records its id whenever it returns. (Escalations are
the exception, see the counterexample.) -/
theorem registry_written_before_later_calls (s : SlowState) :
    (∀ op ∈ opsOf create_rule_and_bind s, ∀ i, op.path = Path.ruleBindings i →
      op.snap.rule_id = some i) ∧
    (∀ op ∈ opsOf create_test_user s, op.path = Path.authLogin → op.snap.user_id ≠ none) ∧
    ((create_sla_config s).fst = Except.ok () →
      (create_sla_config s).snd.created.sla_config_id ≠ none) ∧
    ((create_template s).fst = Except.ok () →
      (create_template s).snd.created.template_id ≠ none) ∧
    ((create_channel s).fst = Except.ok () →
      (create_channel s).snd.created.channel_id ≠ none) :=
  ⟨crb_bindings_snap s, ctu_login_snap s, csc_records s, ctm_records s, cch_records s⟩

theorem registry_written_before_later_calls_witness :
    Op.mk "POST" (Path.ruleBindings 5) { rule_id := some 5 } ∈
      opsOf create_rule_and_bind ruleOkState ∧
    (Op.mk "POST" (Path.ruleBindings 5) { rule_id := some 5 }).snap.rule_id = some 5 :=
  ⟨by decide, (registry_written_before_later_calls ruleOkState).1 _ (by decide) 5 rfl⟩

/-- C3 counterexample: `escalation_flow` creates a platform resource (the
escalation, id 7 under this oracle) and then attempts further fallible
operations (the accept call is in the op log) while the registry records no
escalation id at that moment (its snapshot field is `none`) — nor ever:
`created.escalation_id` is still `none` when the scenario ends. -/
theorem escalation_created_but_never_registered :
    (escalation_flow "tok" "it_user_0" escCEx).fst = Except.ok () ∧
    Op.mk "POST" (Path.escalationAccept 7) {} ∈
      (escalation_flow "tok" "it_user_0" escCEx).snd.ops ∧
    (escalation_flow "tok" "it_user_0" escCEx).snd.created.escalation_id = none := by
  refine ⟨by decide, by decide, by decide⟩

theorem run_ok_of_fst {A : Type} (m : M A) (s : SlowState) (a : A)
    (h : (m s).fst = Except.ok a) : m s = (Except.ok a, (m s).snd) := by
  cases hm : m s with
  | mk e st =>
    rw [hm] at h
    simp only [Prod.fst] at h
    simp [h]

theorem delIfTruthy_fst (mk : Nat → Path) (o : Option Nat) (s : SlowState) :
    (delIfTruthy mk o s).fst = Except.ok () := by
  rcases o with _ | i
  · rfl
  · by_cases h : i == 0
    · simp [delIfTruthy, h, pure_apply]
    · simp [delIfTruthy, h, tryIgnore]

theorem delIfTruthy_snd (mk : Nat → Path) (o : Option Nat) (s : SlowState) :
    (delIfTruthy mk o s).snd =
      match o with
      | none => s
      | some i =>
        if i == 0 then s
        else { s with resps := s.resps.tail,
                      ops := s.ops ++ [⟨"DELETE", mk i, s.created⟩] } := by
  obtain ⟨resps, created, ops, results, events, firing, hits, entry, now, ws, ctr⟩ := s
  rcases o with _ | i
  · rfl
  · simp only [delIfTruthy]
    by_cases h : i == 0
    · simp [h, pure_apply]
    · simp only [h, if_false, Bool.false_eq_true]
      simp [tryIgnore, bind_apply, pure_apply, http]
      cases resps with
      | nil => simp
      | cons r rest => cases r <;> simp

theorem bind_delIfTruthy {B : Type} (mk : Nat → Path) (o : Option Nat)
    (f : Unit → M B) (s : SlowState) :
    ((delIfTruthy mk o) >>= f) s = f () (delIfTruthy mk o s).snd := by
  rw [bind_apply, run_ok_of_fst _ _ () (delIfTruthy_fst mk o s)]

theorem bind_emitEv {B : Type} (e : Ev) (f : Unit → M B) (s : SlowState) :
    ((emitEv e) >>= f) s = f () { s with events := s.events ++ [e] } := rfl

theorem bind_getS {B : Type} (f : SlowState → M B) (s : SlowState) :
    (getS >>= f) s = f s s := rfl

theorem delIfTruthy_created (mk : Nat → Path) (o : Option Nat) (s : SlowState) :
    (delIfTruthy mk o s).snd.created = s.created := by
  rw [delIfTruthy_snd]
  rcases o with _ | i
  · rfl
  · by_cases h : i == 0 <;> simp [h]

theorem delIfTruthy_mem_self (mk : Nat → Path) (i : Nat) (s : SlowState)
    (hi : i ≠ 0) :
    (⟨"DELETE", mk i, s.created⟩ : Op) ∈ (delIfTruthy mk (some i) s).snd.ops := by
  rw [delIfTruthy_snd]
  simp [hi]

theorem delIfTruthy_mem_mono (mk : Nat → Path) (o : Option Nat) (s : SlowState)
    (x : Op) (hx : x ∈ s.ops) : x ∈ (delIfTruthy mk o s).snd.ops := by
  rw [delIfTruthy_snd]
  rcases o with _ | i
  · exact hx
  · by_cases h : i == 0 <;> simp [h, hx]

theorem cleanup_run (s : SlowState) :
    cleanup s =
      (Except.ok (),
        (delIfTruthy Path.userId s.created.user_id
          (delIfTruthy Path.slaConfigId s.created.sla_config_id
            (delIfTruthy Path.templateId s.created.template_id
              (delIfTruthy Path.channelId s.created.channel_id
                (delIfTruthy Path.alertRuleId s.created.rule_id
                  { s with events := s.events ++ [Ev.cleanupCalled] }).snd).snd).snd).snd).snd) := by
  unfold cleanup
  rw [bind_emitEv, bind_getS, bind_delIfTruthy, bind_delIfTruthy, bind_delIfTruthy,
    bind_delIfTruthy]
  rw [run_ok_of_fst _ _ () (delIfTruthy_fst _ _ _)]

/-- C4 (amended): for every harness state — in particular whatever the
oracle answers, so regardless of earlier scenario failures and even when the
platform rejects every DELETE because the resource is already gone —
`cleanup` returns normally, and it attempts a DELETE for every registry
entry that is present with a truthy (nonzero) identifier: each such DELETE
request is in its op log. A failed deletion is swallowed and does not
prevent the remaining attempts (the conclusions put no condition on the
oracle). -/
theorem cleanup_swallows_failures (s : SlowState) :
    (cleanup s).fst = Except.ok () ∧
    (∀ i, s.created.rule_id = some i → i ≠ 0 →
      (⟨"DELETE", Path.alertRuleId i, s.created⟩ : Op) ∈ (cleanup s).snd.ops) ∧
    (∀ i, s.created.channel_id = some i → i ≠ 0 →
      (⟨"DELETE", Path.channelId i, s.created⟩ : Op) ∈ (cleanup s).snd.ops) ∧
    (∀ i, s.created.template_id = some i → i ≠ 0 →
      (⟨"DELETE", Path.templateId i, s.created⟩ : Op) ∈ (cleanup s).snd.ops) ∧
    (∀ i, s.created.sla_config_id = some i → i ≠ 0 →
      (⟨"DELETE", Path.slaConfigId i, s.created⟩ : Op) ∈ (cleanup s).snd.ops) ∧
    (∀ i, s.created.user_id = some i → i ≠ 0 →
      (⟨"DELETE", Path.userId i, s.created⟩ : Op) ∈ (cleanup s).snd.ops) := by
  have hrun := cleanup_run s
  set s0 : SlowState := { s with events := s.events ++ [Ev.cleanupCalled] } with hs0
  have hc0 : s0.created = s.created := rfl
  set s1 := (delIfTruthy Path.alertRuleId s.created.rule_id s0).snd with hs1
  set s2 := (delIfTruthy Path.channelId s.created.channel_id s1).snd with hs2
  set s3 := (delIfTruthy Path.templateId s.created.template_id s2).snd with hs3
  set s4 := (delIfTruthy Path.slaConfigId s.created.sla_config_id s3).snd with hs4
  have hc1 : s1.created = s.created := by rw [hs1, delIfTruthy_created]
  have hc2 : s2.created = s.created := by rw [hs2, delIfTruthy_created, hc1]
  have hc3 : s3.created = s.created := by rw [hs3, delIfTruthy_created, hc2]
  have hc4 : s4.created = s.created := by rw [hs4, delIfTruthy_created, hc3]
  have hsnd : (cleanup s).snd = (delIfTruthy Path.userId s.created.user_id s4).snd := by
    rw [hrun]
  refine ⟨by rw [hrun], ?_, ?_, ?_, ?_, ?_⟩
  · intro i hi hnz
    rw [hsnd]
    apply delIfTruthy_mem_mono
    rw [hs4]; apply delIfTruthy_mem_mono
    rw [hs3]; apply delIfTruthy_mem_mono
    rw [hs2]; apply delIfTruthy_mem_mono
    rw [hs1, hi, ← hc0]
    exact delIfTruthy_mem_self Path.alertRuleId i s0 hnz
  · intro i hi hnz
    rw [hsnd]
    apply delIfTruthy_mem_mono
    rw [hs4]; apply delIfTruthy_mem_mono
    rw [hs3]; apply delIfTruthy_mem_mono
    rw [hs2, hi, ← hc1]
    exact delIfTruthy_mem_self Path.channelId i s1 hnz
  · intro i hi hnz
    rw [hsnd]
    apply delIfTruthy_mem_mono
    rw [hs4]; apply delIfTruthy_mem_mono
    rw [hs3, hi, ← hc2]
    exact delIfTruthy_mem_self Path.templateId i s2 hnz
  · intro i hi hnz
    rw [hsnd]
    apply delIfTruthy_mem_mono
    rw [hs4, hi, ← hc3]
    exact delIfTruthy_mem_self Path.slaConfigId i s3 hnz
  · intro i hi hnz
    rw [hsnd, hi, ← hc4]
    exact delIfTruthy_mem_self Path.userId i s4 hnz

theorem cleanup_swallows_failures_witness :
    (cleanup cleanupWitnessState).fst = Except.ok () ∧
    (⟨"DELETE", Path.alertRuleId 1, cleanupWitnessState.created⟩ : Op) ∈
      (cleanup cleanupWitnessState).snd.ops ∧
    (⟨"DELETE", Path.userId 5, cleanupWitnessState.created⟩ : Op) ∈
      (cleanup cleanupWitnessState).snd.ops :=
  ⟨(cleanup_swallows_failures cleanupWitnessState).1,
   (cleanup_swallows_failures cleanupWitnessState).2.1 1 rfl (by decide),
   (cleanup_swallows_failures cleanupWitnessState).2.2.2.2.2 5 rfl (by decide)⟩

/-- C4 counterexample: a registry entry that is present (`rule_id = some 0`,
not the absent marker `None`) but whose identifier is the Python-falsy `0`
is skipped by the `if created["rule_id"]:` guard — the cleanup phase issues
no request at all, so not every present entry gets a deletion attempt. -/
theorem cleanup_skips_present_zero_id :
    zeroIdState.created.rule_id ≠ none ∧
    (cleanup zeroIdState).fst = Except.ok () ∧
    (cleanup zeroIdState).snd.ops = [] := by
  refine ⟨by decide, by decide, by decide⟩

/-- C5 (amended): whenever the oracle makes setup fail (login raising, a
malformed login or group response, a transport failure, or an empty
business-group list), `mainSlow` raises: no scenario is executed (`results`
is untouched), nothing is registered (`created` is untouched), and the only
events of the run are the two stub starts — in particular neither `cleanup`
nor a stub shutdown is attempted. -/
theorem setup_failure_aborts (s : SlowState) (hf : setupFailsB s.resps = true) :
    (∃ e, (mainSlow s).fst = Except.error e) ∧
    (mainSlow s).snd.results = s.results ∧
    (mainSlow s).snd.events = s.events ++ [Ev.serverStart 18081, Ev.serverStart 18082] ∧
    (mainSlow s).snd.created = s.created := by
  obtain ⟨resps, created, ops, results, events, firing, hits, entry, now, ws, ctr⟩ := s
  rcases resps with _ | ⟨r, rest⟩
  · simp [mainSlow, bind_emitEv, bind_apply, emitEv, modifyS, getS, httpTok, httpRows, http, throwM, pure_apply]
  · rcases r with e | v
    · simp [mainSlow, bind_emitEv, bind_apply, emitEv, modifyS, getS, httpTok, httpRows, http, throwM, pure_apply]
    · rcases v with n | ⟨t, uid⟩ | rs | _
      · simp [mainSlow, bind_emitEv, bind_apply, emitEv, modifyS, getS, httpTok, httpRows, http, throwM, pure_apply]
      · rcases rest with _ | ⟨r2, rest2⟩
        · simp [mainSlow, bind_emitEv, bind_apply, emitEv, modifyS, getS, httpTok, httpRows, http, throwM, pure_apply]
        · rcases r2 with e2 | v2
          · simp [mainSlow, bind_emitEv, bind_apply, emitEv, modifyS, getS, httpTok, httpRows, http, throwM,
              pure_apply]
          · rcases v2 with n2 | ⟨t2, uid2⟩ | rs2 | _
            · simp [mainSlow, bind_emitEv, bind_apply, emitEv, modifyS, getS, httpTok, httpRows, http, throwM,
                pure_apply]
            · simp [mainSlow, bind_emitEv, bind_apply, emitEv, modifyS, getS, httpTok, httpRows, http, throwM,
                pure_apply]
            · rcases rs2 with _ | ⟨g, gs⟩
              · simp [mainSlow, bind_emitEv, bind_apply, emitEv, modifyS, getS, httpTok, httpRows, http, throwM,
                  pure_apply]
              · simp [setupFailsB] at hf
            · simp [mainSlow, bind_emitEv, bind_apply, emitEv, modifyS, getS, httpTok, httpRows, http, throwM,
                pure_apply]
      · simp [mainSlow, bind_emitEv, bind_apply, emitEv, modifyS, getS, httpTok, httpRows, http, throwM, pure_apply]
      · simp [mainSlow, bind_emitEv, bind_apply, emitEv, modifyS, getS, httpTok, httpRows, http, throwM, pure_apply]

theorem setup_failure_aborts_witness :
    (∃ e, (mainSlow loginFailOracle).fst = Except.error e) ∧
    (mainSlow loginFailOracle).snd.results = loginFailOracle.results ∧
    (mainSlow loginFailOracle).snd.events =
      loginFailOracle.events ++ [Ev.serverStart 18081, Ev.serverStart 18082] ∧
    (mainSlow loginFailOracle).snd.created = loginFailOracle.created :=
  setup_failure_aborts loginFailOracle (by decide)

/-- C5 counterexample: when the admin login fails, the run does abort before
any scenario, but — the setup calls sitting outside the `try` block —
neither the cleanup phase nor a stub shutdown is attempted: the event trace
holds only the two stub starts. -/
theorem setup_failure_skips_cleanup_and_shutdown :
    (mainSlow loginFailOracle).fst = Except.error "HTTP 500: internal error" ∧
    (mainSlow loginFailOracle).snd.events = [Ev.serverStart 18081, Ev.serverStart 18082] ∧
    Ev.cleanupCalled ∉ (mainSlow loginFailOracle).snd.events ∧
    Ev.shutdownCalled 18081 ∉ (mainSlow loginFailOracle).snd.events ∧
    Ev.shutdownCalled 18082 ∉ (mainSlow loginFailOracle).snd.events := by
  refine ⟨by decide, by decide, by decide, by decide, by decide⟩

end AlertSmoke
